import Mathlib

/-!
Shallow embedding of the admin meal controller (`adminMealController`, exported
handlers `getAllMeals`, `createMeal`, `updateMeal`, `deleteMeal`) wired by
`adminMealRoutes.ts`.

Modelling choices:
* The request body is a record of optional fields (`undefined` = `none`);
  numbers are `Int` (the handlers only compare against 0).
* The caller identity `req.user` is `Option Nat` (`req.user._id` is a `Nat`).
* The document store (`Meal.find` / `Meal.create` / `Meal.findByIdAndUpdate` /
  `Meal.findByIdAndDelete`) is an explicit state `MealStore`; a `StoreOutcome`
  parameter says whether the (single) store call of a handler run succeeds or
  throws an error with a given `name` and optional `message`, modelling the
  `catch` blocks' duck-typed inspection.
* Each handler returns the HTTP response, the resulting store state, and the
  list of store calls it issued (so that "no store operation is performed" is
  expressible).
-/

namespace AdminMeal

structure ReqBody where
  name : Option String
  description : Option String
  image : Option String
  calories : Option Int
  carbs : Option Int
  protein : Option Int
  fat : Option Int
  weightGrams : Option Int
  isCommon : Option Bool
  createdBy : Option Nat
deriving Repr, DecidableEq

structure MealDoc where
  name : String
  description : Option String
  image : Option String
  calories : Int
  carbs : Int
  protein : Int
  fat : Int
  weightGrams : Int
  isCommon : Bool
  createdBy : Nat
deriving Repr, DecidableEq

structure ErrBody where
  error : String
  message : String
deriving Repr, DecidableEq

inductive RespBody where
  | errB (e : ErrBody)
  | dataMeal (m : MealDoc)
  | dataList (ms : List MealDoc)
  | msgB (m : String)
deriving Repr, DecidableEq

structure Response where
  status : Nat
  body : RespBody
deriving Repr, DecidableEq

structure MealStore where
  nextId : Nat
  docs : List (Nat × MealDoc)
deriving Repr, DecidableEq

inductive StoreCall where
  | findCall (filter : Option String)
  | createCall (doc : MealDoc)
  | updateCall (id : Nat) (upd : ReqBody)
  | deleteCall (id : Nat)
deriving Repr, DecidableEq

inductive StoreOutcome where
  | ok
  | throwErr (name : String) (message : Option String)
deriving Repr, DecidableEq

structure HandlerResult where
  resp : Response
  store : MealStore
  calls : List StoreCall
deriving Repr, DecidableEq

/-- Modelled from the spec: the store's full-text search (`$text`) filter is
MongoDB behaviour external to this repository; we model it as word matching
over the indexed text fields (name, description). No claim depends on its
exact semantics, only on which filter the handler builds. -/
def textMatches (term : String) (m : MealDoc) : Bool :=
  (m.name.splitOn (" ")).contains term ||
    (match m.description with
     | some d => (d.splitOn (" ")).contains term
     | none => false)

/-- `Meal.find(filter)`: `filter` is `{}` (here `none`) or a `$text` search. -/
def MealStore.find (st : MealStore) (filter : Option String) : List MealDoc :=
  match filter with
  | none => st.docs.map (fun p => p.2)
  | some term => (st.docs.map (fun p => p.2)).filter (textMatches term)

/-- `Meal.create(doc)`: the store assigns a fresh identifier and returns the
created document. -/
def MealStore.create (st : MealStore) (d : MealDoc) : MealDoc × MealStore :=
  (d, ⟨st.nextId + 1, st.docs ++ [(st.nextId, d)]⟩)

/-- Lookup of a document by identifier. -/
def MealStore.findDoc (st : MealStore) (id : Nat) : Option MealDoc :=
  (st.docs.find? (fun p => p.1 == id)).map (fun p => p.2)

/-- Partial-update semantics of the store: every field present in the update
body overwrites the stored field; absent fields are kept. -/
def applyUpdate (m : MealDoc) (u : ReqBody) : MealDoc :=
  { name := u.name.getD m.name
    description := match u.description with | some d => some d | none => m.description
    image := match u.image with | some i => some i | none => m.image
    calories := u.calories.getD m.calories
    carbs := u.carbs.getD m.carbs
    protein := u.protein.getD m.protein
    fat := u.fat.getD m.fat
    weightGrams := u.weightGrams.getD m.weightGrams
    isCommon := u.isCommon.getD m.isCommon
    createdBy := u.createdBy.getD m.createdBy }

/-- `Meal.findByIdAndUpdate(id, updateData, {new: true})`: returns the updated
document when the identifier resolves, `none` otherwise. -/
def MealStore.findByIdAndUpdate (st : MealStore) (id : Nat) (u : ReqBody) :
    Option MealDoc × MealStore :=
  match st.findDoc id with
  | none => (none, st)
  | some m =>
    let m2 := applyUpdate m u
    (some m2, ⟨st.nextId, st.docs.map (fun p => if p.1 == id then (p.1, m2) else p)⟩)

/-- `Meal.findByIdAndDelete(id)`: returns the removed document when the
identifier resolves, `none` otherwise. -/
def MealStore.findByIdAndDelete (st : MealStore) (id : Nat) :
    Option MealDoc × MealStore :=
  match st.findDoc id with
  | none => (none, st)
  | some m => (some m, ⟨st.nextId, st.docs.filter (fun p => p.1 != id)⟩)

/-- JavaScript `a || b` on an optional string: falsy (`undefined` or the empty
string) falls through to the default. -/
def jsOr (s : Option String) (d : String) : String :=
  match s with
  | some t => if t = "" then d else t
  | none => d

/-- The 401 response every handler returns when `req.user` is absent. -/
def unauthorized : Response :=
  ⟨401, .errB ⟨"Unauthorized", "User not authenticated"⟩⟩

/-- The 404 response of `updateMeal` and `deleteMeal`. -/
def mealNotFound : Response :=
  ⟨404, .errB ⟨"Not found", "Meal not found"⟩⟩

/-- `createMeal`'s required-field check:
`!name || calories === undefined || carbs === undefined || protein ===
undefined || fat === undefined || weightGrams === undefined`. -/
def missingRequired (b : ReqBody) : Bool :=
  (match b.name with | none => true | some s => s = "") ||
  b.calories.isNone || b.carbs.isNone || b.protein.isNone ||
  b.fat.isNone || b.weightGrams.isNone

/-- `createMeal`'s negativity check:
`calories < 0 || carbs < 0 || protein < 0 || fat < 0 || weightGrams < 0`
(run after the undefined-check, so `getD 0` is only a type-level default). -/
def negativeCreate (b : ReqBody) : Bool :=
  decide (b.calories.getD 0 < 0) || decide (b.carbs.getD 0 < 0) ||
  decide (b.protein.getD 0 < 0) || decide (b.fat.getD 0 < 0) ||
  decide (b.weightGrams.getD 0 < 0)

/-- `updateMeal`'s per-field check `x !== undefined && x < 0`. -/
def negPresent (x : Option Int) : Bool :=
  match x with
  | none => false
  | some v => decide (v < 0)

/-- Disjunction of `updateMeal`'s five per-field validation checks. -/
def updNegative (b : ReqBody) : Bool :=
  negPresent b.calories || negPresent b.carbs || negPresent b.protein ||
  negPresent b.fat || negPresent b.weightGrams

/-- Handler `getAllMeals`. -/
def getAllMeals (user : Option Nat) (search : Option String)
    (st : MealStore) (o : StoreOutcome) : HandlerResult :=
  match user with
  | none => ⟨unauthorized, st, []⟩
  | some _ =>
    let filter : Option String :=
      match search with
      | none => none
      | some s => if s = "" then none else some s
    match o with
    | .ok => ⟨⟨200, .dataList (st.find filter)⟩, st, [.findCall filter]⟩
    | .throwErr _ _ =>
      ⟨⟨500, .errB ⟨"Internal server error", "Failed to get meals"⟩⟩, st,
        [.findCall filter]⟩

/-- Handler `createMeal`. -/
def createMeal (user : Option Nat) (b : ReqBody)
    (st : MealStore) (o : StoreOutcome) : HandlerResult :=
  match user with
  | none => ⟨unauthorized, st, []⟩
  | some uid =>
    if missingRequired b then
      ⟨⟨400, .errB ⟨"Validation error",
        "Name, calories, carbs, protein, fat và weightGrams là bắt buộc"⟩⟩, st, []⟩
    else if negativeCreate b then
      ⟨⟨400, .errB ⟨"Validation error",
        "Nutrition values/weight cannot be negative"⟩⟩, st, []⟩
    else
      let doc : MealDoc :=
        { name := b.name.getD ""
          description := b.description
          image := b.image
          calories := b.calories.getD 0
          carbs := b.carbs.getD 0
          protein := b.protein.getD 0
          fat := b.fat.getD 0
          weightGrams := b.weightGrams.getD 0
          isCommon := true
          createdBy := uid }
      match o with
      | .ok =>
        let r := st.create doc
        ⟨⟨201, .dataMeal r.1⟩, r.2, [.createCall doc]⟩
      | .throwErr n msg =>
        if n = "ValidationError" then
          ⟨⟨400, .errB ⟨"Validation error", jsOr msg ("Validation error")⟩⟩, st,
            [.createCall doc]⟩
        else
          ⟨⟨500, .errB ⟨"Internal server error", "Failed to create meal"⟩⟩, st,
            [.createCall doc]⟩

/-- Handler `updateMeal`. -/
def updateMeal (user : Option Nat) (id : Nat) (b : ReqBody)
    (st : MealStore) (o : StoreOutcome) : HandlerResult :=
  match user with
  | none => ⟨unauthorized, st, []⟩
  | some _ =>
    if negPresent b.calories then
      ⟨⟨400, .errB ⟨"Validation error", "Calories cannot be negative"⟩⟩, st, []⟩
    else if negPresent b.carbs then
      ⟨⟨400, .errB ⟨"Validation error", "Carbs cannot be negative"⟩⟩, st, []⟩
    else if negPresent b.protein then
      ⟨⟨400, .errB ⟨"Validation error", "Protein cannot be negative"⟩⟩, st, []⟩
    else if negPresent b.fat then
      ⟨⟨400, .errB ⟨"Validation error", "Fat cannot be negative"⟩⟩, st, []⟩
    else if negPresent b.weightGrams then
      ⟨⟨400, .errB ⟨"Validation error", "Weight cannot be negative"⟩⟩, st, []⟩
    else
      match o with
      | .ok =>
        let r := st.findByIdAndUpdate id b
        match r.1 with
        | none => ⟨mealNotFound, r.2, [.updateCall id b]⟩
        | some m => ⟨⟨200, .dataMeal m⟩, r.2, [.updateCall id b]⟩
      | .throwErr n msg =>
        if n = "ValidationError" then
          ⟨⟨400, .errB ⟨"Validation error", jsOr msg ("Validation error")⟩⟩, st,
            [.updateCall id b]⟩
        else
          ⟨⟨500, .errB ⟨"Internal server error", "Failed to update meal"⟩⟩, st,
            [.updateCall id b]⟩

/-- Handler `deleteMeal`. -/
def deleteMeal (user : Option Nat) (id : Nat)
    (st : MealStore) (o : StoreOutcome) : HandlerResult :=
  match user with
  | none => ⟨unauthorized, st, []⟩
  | some _ =>
    match o with
    | .ok =>
      let r := st.findByIdAndDelete id
      match r.1 with
      | none => ⟨mealNotFound, r.2, [.deleteCall id]⟩
      | some _ => ⟨⟨200, .msgB ("Meal deleted successfully")⟩, r.2, [.deleteCall id]⟩
    | .throwErr _ _ =>
      ⟨⟨500, .errB ⟨"Internal server error", "Failed to delete meal"⟩⟩, st,
        [.deleteCall id]⟩

/-! Sample concrete values used by witness theorems. -/

def sampleBody : ReqBody :=
  ⟨some ("Rice"), none, none, some 200, some 45, some 4, some 0, some 150,
    some false, some 99⟩

def badBody : ReqBody :=
  ⟨none, none, none, some 200, some 45, some 4, some 0, some 150, none, none⟩

def negBody : ReqBody :=
  ⟨none, none, none, some (-1), none, none, none, none, none, none⟩

def negBody2 : ReqBody :=
  ⟨none, none, none, some (-1), none, none, some (-2), none, none, none⟩

def sampleMeal : MealDoc :=
  ⟨"Rice", none, none, 200, 45, 4, 0, 150, true, 7⟩

def emptyStore : MealStore := ⟨0, []⟩

def sampleStore : MealStore := ⟨1, [(0, sampleMeal)]⟩

/-- C3: when no caller identity is attached, each of the four handlers returns
status 401 with body `{ error: 'Unauthorized', message: 'User not
authenticated' }`, leaves the store unchanged, and makes no store call. -/
theorem handlers_unauthenticated_401 (s : Option String) (id : Nat) (b : ReqBody)
    (st : MealStore) (o : StoreOutcome) :
    unauthorized = ⟨401, .errB ⟨"Unauthorized", "User not authenticated"⟩⟩ ∧
    getAllMeals none s st o = ⟨unauthorized, st, []⟩ ∧
    createMeal none b st o = ⟨unauthorized, st, []⟩ ∧
    updateMeal none id b st o = ⟨unauthorized, st, []⟩ ∧
    deleteMeal none id st o = ⟨unauthorized, st, []⟩ :=
  ⟨rfl, rfl, rfl, rfl, rfl⟩

/-- C1: for every valid create payload (name present and truthy, all five
numeric fields defined and nonnegative), `createMeal` returns status 201 on
store success, and the document it passes to the store's create operation has
`isCommon = true` and `createdBy` equal to the caller's identifier — for every
body, in particular regardless of any `isCommon`/`createdBy` values the body
carries, and regardless of the store outcome. -/
theorem createMeal_valid_stamps (uid : Nat) (b : ReqBody) (st : MealStore)
    (h1 : missingRequired b = false) (h2 : negativeCreate b = false) :
    (createMeal (some uid) b st .ok).resp.status = 201 ∧
    ∀ (o : StoreOutcome) (d : MealDoc),
      StoreCall.createCall d ∈ (createMeal (some uid) b st o).calls →
      d.isCommon = true ∧ d.createdBy = uid := by
  constructor
  · simp [createMeal, h1, h2]
  · intro o d hd
    cases o with
    | ok =>
      simp [createMeal, h1, h2] at hd
      subst hd; exact ⟨rfl, rfl⟩
    | throwErr n msg =>
      by_cases hn : n = "ValidationError" <;>
        simp [createMeal, h1, h2, hn] at hd <;>
        (subst hd; exact ⟨rfl, rfl⟩)

/-- C4: a create payload with `name` missing or falsy, or any of the five
numeric fields undefined, or any of them negative, yields status 400 with the
store untouched and no store call; when a required field is missing the
bilingual missing-fields message is returned (so the missing-field check runs
before the negativity check), and literal 0 passes the presence check. -/
theorem createMeal_invalid_400 (uid : Nat) (b : ReqBody) (st : MealStore)
    (o : StoreOutcome)
    (h : missingRequired b = true ∨
      (missingRequired b = false ∧ negativeCreate b = true)) :
    (createMeal (some uid) b st o).resp.status = 400 ∧
    (createMeal (some uid) b st o).store = st ∧
    (createMeal (some uid) b st o).calls = [] ∧
    (missingRequired b = true →
      (createMeal (some uid) b st o).resp.body =
        .errB ⟨"Validation error",
          "Name, calories, carbs, protein, fat và weightGrams là bắt buộc"⟩) ∧
    (∀ n : String, n ≠ "" →
      missingRequired ⟨some n, b.description, b.image, some 0, some 0, some 0,
        some 0, some 0, b.isCommon, b.createdBy⟩ = false) := by
  have hzero : ∀ n : String, n ≠ "" →
      missingRequired ⟨some n, b.description, b.image, some 0, some 0, some 0,
        some 0, some 0, b.isCommon, b.createdBy⟩ = false := by
    intro n hn
    simp [missingRequired, hn]
  rcases h with hm | ⟨hm, hneg⟩
  · exact ⟨by simp [createMeal, hm], by simp [createMeal, hm],
      by simp [createMeal, hm], fun _ => by simp [createMeal, hm], hzero⟩
  · refine ⟨by simp [createMeal, hm, hneg], by simp [createMeal, hm, hneg],
      by simp [createMeal, hm, hneg], fun hcontra => ?_, hzero⟩
    rw [hm] at hcontra
    exact absurd hcontra (by simp)

/-- C7: with an authenticated caller and a successful store read,
`getAllMeals` queries the store with the `$text` filter built from a
non-empty `search` term, and with the empty filter when `search` is absent or
empty; in every case it answers 200 with `{ success: true, data: meals }`
(whatever list the store returns, including the empty one), and the store
state is unchanged. -/
theorem getAllMeals_search_filter (uid : Nat) (s : String) (st : MealStore)
    (hs : s ≠ "") :
    getAllMeals (some uid) (some s) st .ok =
      ⟨⟨200, .dataList (st.find (some s))⟩, st, [.findCall (some s)]⟩ ∧
    getAllMeals (some uid) none st .ok =
      ⟨⟨200, .dataList (st.find none)⟩, st, [.findCall none]⟩ ∧
    getAllMeals (some uid) (some "") st .ok =
      ⟨⟨200, .dataList (st.find none)⟩, st, [.findCall none]⟩ := by
  refine ⟨by simp [getAllMeals, hs], rfl, by simp [getAllMeals]⟩

/-- Witness for C1 at a concrete valid payload. -/
theorem createMeal_valid_stamps_witness :
    (createMeal (some 7) sampleBody emptyStore .ok).resp.status = 201 :=
  (createMeal_valid_stamps 7 sampleBody emptyStore (by decide) (by decide)).1

/-- Witness for C4 at a concrete payload with `name` missing. -/
theorem createMeal_invalid_400_witness :
    (createMeal (some 7) badBody emptyStore .ok).resp.status = 400 :=
  (createMeal_invalid_400 7 badBody emptyStore .ok (Or.inl (by decide))).1

/-- Witness for C7 at a concrete non-empty search term. -/
theorem getAllMeals_search_filter_witness :
    (getAllMeals (some 7) (some ("Rice")) sampleStore .ok).resp.status = 200 := by
  have h := getAllMeals_search_filter 7 ("Rice") sampleStore (by decide)
  rw [h.1]

/-- C2: `updateMeal` forwards the request body to the store's
update-by-identifier operation verbatim — the single store call carries
exactly the body, with every present field including `isCommon` and
`createdBy` — and when the store resolves the identifier the handler answers
200 with the store's resulting full document. -/
theorem updateMeal_forwards_body (uid id : Nat) (b : ReqBody) (st : MealStore)
    (hb : updNegative b = false) :
    (updateMeal (some uid) id b st .ok).calls = [.updateCall id b] ∧
    (∀ m st2, st.findByIdAndUpdate id b = (some m, st2) →
      (updateMeal (some uid) id b st .ok).resp = ⟨200, .dataMeal m⟩ ∧
      (updateMeal (some uid) id b st .ok).store = st2) := by
  simp only [updNegative, Bool.or_eq_false_iff] at hb
  obtain ⟨⟨⟨⟨hc, h2⟩, h3⟩, h4⟩, h5⟩ := hb
  constructor
  · rcases hm : (st.findByIdAndUpdate id b).1 with _ | m <;>
      simp [updateMeal, hc, h2, h3, h4, h5, hm]
  · intro m st2 heq
    have e1 : (st.findByIdAndUpdate id b).1 = some m := by rw [heq]
    have e2 : (st.findByIdAndUpdate id b).2 = st2 := by rw [heq]
    constructor <;> simp [updateMeal, hc, h2, h3, h4, h5, e1, e2]

/-- C5: any of the five numeric fields that is present and negative makes
`updateMeal` answer 400 with the store untouched and no store call; the error
body is one of the five field-specific messages, and when a single field is
the violating one the message names that field. -/
theorem updateMeal_negative_field_400 (uid id : Nat) (b : ReqBody)
    (st : MealStore) (o : StoreOutcome) (h : updNegative b = true) :
    (updateMeal (some uid) id b st o).resp.status = 400 ∧
    (updateMeal (some uid) id b st o).store = st ∧
    (updateMeal (some uid) id b st o).calls = [] ∧
    (updateMeal (some uid) id b st o).resp.body ∈
      ([.errB ⟨"Validation error", "Calories cannot be negative"⟩,
        .errB ⟨"Validation error", "Carbs cannot be negative"⟩,
        .errB ⟨"Validation error", "Protein cannot be negative"⟩,
        .errB ⟨"Validation error", "Fat cannot be negative"⟩,
        .errB ⟨"Validation error", "Weight cannot be negative"⟩] :
        List RespBody) ∧
    (negPresent b.calories = true → negPresent b.carbs = false →
      negPresent b.protein = false → negPresent b.fat = false →
      negPresent b.weightGrams = false →
      (updateMeal (some uid) id b st o).resp.body =
        .errB ⟨"Validation error", "Calories cannot be negative"⟩) ∧
    (negPresent b.calories = false → negPresent b.carbs = true →
      negPresent b.protein = false → negPresent b.fat = false →
      negPresent b.weightGrams = false →
      (updateMeal (some uid) id b st o).resp.body =
        .errB ⟨"Validation error", "Carbs cannot be negative"⟩) ∧
    (negPresent b.calories = false → negPresent b.carbs = false →
      negPresent b.protein = true → negPresent b.fat = false →
      negPresent b.weightGrams = false →
      (updateMeal (some uid) id b st o).resp.body =
        .errB ⟨"Validation error", "Protein cannot be negative"⟩) ∧
    (negPresent b.calories = false → negPresent b.carbs = false →
      negPresent b.protein = false → negPresent b.fat = true →
      negPresent b.weightGrams = false →
      (updateMeal (some uid) id b st o).resp.body =
        .errB ⟨"Validation error", "Fat cannot be negative"⟩) ∧
    (negPresent b.calories = false → negPresent b.carbs = false →
      negPresent b.protein = false → negPresent b.fat = false →
      negPresent b.weightGrams = true →
      (updateMeal (some uid) id b st o).resp.body =
        .errB ⟨"Validation error", "Weight cannot be negative"⟩) := by
  have H : ∀ x : Bool, x = true ∨ x = false := by decide
  rcases H (negPresent b.calories) with hc | hc <;>
    rcases H (negPresent b.carbs) with hcb | hcb <;>
      rcases H (negPresent b.protein) with hp | hp <;>
        rcases H (negPresent b.fat) with hf | hf <;>
          rcases H (negPresent b.weightGrams) with hw | hw <;>
            simp_all [updateMeal, updNegative]

/-- C9: every handler is total and its status is always one of the documented
codes 200, 201, 400, 401, 404, 500 — for every identity, body, search term,
store state, and store outcome (success or an arbitrary thrown error). -/
theorem handlers_status_in_documented_set (u : Option Nat) (s : Option String)
    (id : Nat) (b : ReqBody) (st : MealStore) (o : StoreOutcome) :
    (getAllMeals u s st o).resp.status ∈ ([200, 201, 400, 401, 404, 500] : List Nat) ∧
    (createMeal u b st o).resp.status ∈ ([200, 201, 400, 401, 404, 500] : List Nat) ∧
    (updateMeal u id b st o).resp.status ∈ ([200, 201, 400, 401, 404, 500] : List Nat) ∧
    (deleteMeal u id st o).resp.status ∈ ([200, 201, 400, 401, 404, 500] : List Nat) := by
  refine ⟨?_, ?_, ?_, ?_⟩ <;>
    · cases u <;> cases o <;>
        simp only [getAllMeals, createMeal, updateMeal, deleteMeal,
          unauthorized, mealNotFound] <;>
        (repeat' split) <;> simp

/-- Witness for C2 at a concrete passing body and an identifier present in
the store. -/
theorem updateMeal_forwards_body_witness :
    (updateMeal (some 7) 0 sampleBody sampleStore .ok).calls =
      [.updateCall 0 sampleBody] :=
  (updateMeal_forwards_body 7 0 sampleBody sampleStore (by decide)).1

/-- Witness for C5 at a concrete body with a negative `calories`. -/
theorem updateMeal_negative_field_400_witness :
    (updateMeal (some 7) 0 negBody sampleStore .ok).resp.status = 400 ∧
    (updateMeal (some 7) 0 negBody sampleStore .ok).store = sampleStore := by
  have h := updateMeal_negative_field_400 7 0 negBody sampleStore .ok (by decide)
  exact ⟨h.1, h.2.1⟩

/-- After `findByIdAndDelete` removes a document, the identifier no longer
resolves. -/
theorem findDoc_after_delete (st : MealStore) (id : Nat) :
    MealStore.findDoc ⟨st.nextId, st.docs.filter (fun p => p.1 != id)⟩ id = none := by
  suffices h : ∀ l : List (Nat × MealDoc),
      (l.filter (fun p => p.1 != id)).find? (fun p => p.1 == id) = none by
    simp [MealStore.findDoc, h]
  intro l
  induction l with
  | nil => rfl
  | cons a t ih =>
    by_cases ha : a.1 = id
    · simp [List.filter_cons, ha, ih]
    · simp [List.filter_cons, List.find?_cons, ha, ih]

/-- C6: when the identifier does not resolve, `updateMeal` (on a body passing
validation) and `deleteMeal` both answer 404 `{ error: 'Not found', message:
'Meal not found' }`; and deleting an existing identifier answers 200 with
message `'Meal deleted successfully'` while removing the document, so a
second delete of the same identifier answers 404. -/
theorem update_delete_notFound_404_and_delete_twice (uid id : Nat) (b : ReqBody)
    (st : MealStore) (hb : updNegative b = false) :
    (st.findDoc id = none →
      (updateMeal (some uid) id b st .ok).resp = mealNotFound ∧
      (deleteMeal (some uid) id st .ok).resp = mealNotFound ∧
      mealNotFound = ⟨404, .errB ⟨"Not found", "Meal not found"⟩⟩) ∧
    (∀ m, st.findDoc id = some m →
      (deleteMeal (some uid) id st .ok).resp =
        ⟨200, .msgB ("Meal deleted successfully")⟩ ∧
      (deleteMeal (some uid) id
        (deleteMeal (some uid) id st .ok).store .ok).resp = mealNotFound) := by
  simp only [updNegative, Bool.or_eq_false_iff] at hb
  obtain ⟨⟨⟨⟨hc, h2⟩, h3⟩, h4⟩, h5⟩ := hb
  constructor
  · intro hnone
    refine ⟨?_, ?_, rfl⟩
    · simp [updateMeal, hc, h2, h3, h4, h5, MealStore.findByIdAndUpdate, hnone]
    · simp [deleteMeal, MealStore.findByIdAndDelete, hnone]
  · intro m hm
    have hst : (deleteMeal (some uid) id st .ok).store =
        ⟨st.nextId, st.docs.filter (fun p => p.1 != id)⟩ := by
      simp [deleteMeal, MealStore.findByIdAndDelete, hm]
    refine ⟨?_, ?_⟩
    · simp [deleteMeal, MealStore.findByIdAndDelete, hm]
    · rw [hst]
      simp [deleteMeal, MealStore.findByIdAndDelete, findDoc_after_delete]

/-- C8: when the store call reached by `createMeal` or `updateMeal` throws,
the handler answers 400 carrying the thrown error's message exactly when the
error's name is `'ValidationError'` (with the thrown message surfaced as-is
whenever it is non-empty), and 500 with a fixed generic message for any other
error name; `getAllMeals` and `deleteMeal` collapse every thrown store error
to a generic 500. -/
theorem store_throw_error_mapping (uid id : Nat) (b : ReqBody) (st : MealStore)
    (s : Option String) (n : String) (msg : Option String)
    (h1 : missingRequired b = false) (h2 : negativeCreate b = false)
    (h3 : updNegative b = false) :
    (n = "ValidationError" →
      (createMeal (some uid) b st (.throwErr n msg)).resp =
        ⟨400, .errB ⟨"Validation error", jsOr msg ("Validation error")⟩⟩ ∧
      (updateMeal (some uid) id b st (.throwErr n msg)).resp =
        ⟨400, .errB ⟨"Validation error", jsOr msg ("Validation error")⟩⟩) ∧
    (n ≠ "ValidationError" →
      (createMeal (some uid) b st (.throwErr n msg)).resp =
        ⟨500, .errB ⟨"Internal server error", "Failed to create meal"⟩⟩ ∧
      (updateMeal (some uid) id b st (.throwErr n msg)).resp =
        ⟨500, .errB ⟨"Internal server error", "Failed to update meal"⟩⟩) ∧
    (getAllMeals (some uid) s st (.throwErr n msg)).resp =
      ⟨500, .errB ⟨"Internal server error", "Failed to get meals"⟩⟩ ∧
    (deleteMeal (some uid) id st (.throwErr n msg)).resp =
      ⟨500, .errB ⟨"Internal server error", "Failed to delete meal"⟩⟩ ∧
    (∀ t : String, t ≠ "" → jsOr (some t) ("Validation error") = t) := by
  simp only [updNegative, Bool.or_eq_false_iff] at h3
  obtain ⟨⟨⟨⟨hc, hb2⟩, hb3⟩, hb4⟩, hb5⟩ := h3
  refine ⟨?_, ?_, ?_, rfl, ?_⟩
  · intro hn
    constructor <;> simp [createMeal, updateMeal, h1, h2, hc, hb2, hb3, hb4, hb5, hn]
  · intro hn
    constructor <;> simp [createMeal, updateMeal, h1, h2, hc, hb2, hb3, hb4, hb5, hn]
  · cases s with
    | none => rfl
    | some t => simp [getAllMeals]
  · intro t ht
    simp [jsOr, ht]

/-- C10: when several numeric fields of an update body are negative, the 400
message is the one for the first negative field in the order calories, carbs,
protein, fat, weightGrams; and a body containing none of those five fields
passes validation and reaches the store update call. -/
theorem updateMeal_first_violation_message (uid id : Nat) (b : ReqBody)
    (st : MealStore) (o : StoreOutcome) :
    (negPresent b.calories = true →
      (updateMeal (some uid) id b st o).resp =
        ⟨400, .errB ⟨"Validation error", "Calories cannot be negative"⟩⟩) ∧
    (negPresent b.calories = false → negPresent b.carbs = true →
      (updateMeal (some uid) id b st o).resp =
        ⟨400, .errB ⟨"Validation error", "Carbs cannot be negative"⟩⟩) ∧
    (negPresent b.calories = false → negPresent b.carbs = false →
      negPresent b.protein = true →
      (updateMeal (some uid) id b st o).resp =
        ⟨400, .errB ⟨"Validation error", "Protein cannot be negative"⟩⟩) ∧
    (negPresent b.calories = false → negPresent b.carbs = false →
      negPresent b.protein = false → negPresent b.fat = true →
      (updateMeal (some uid) id b st o).resp =
        ⟨400, .errB ⟨"Validation error", "Fat cannot be negative"⟩⟩) ∧
    (negPresent b.calories = false → negPresent b.carbs = false →
      negPresent b.protein = false → negPresent b.fat = false →
      negPresent b.weightGrams = true →
      (updateMeal (some uid) id b st o).resp =
        ⟨400, .errB ⟨"Validation error", "Weight cannot be negative"⟩⟩) ∧
    (b.calories = none → b.carbs = none → b.protein = none → b.fat = none →
      b.weightGrams = none →
      (updateMeal (some uid) id b st .ok).calls = [.updateCall id b]) := by
  refine ⟨?_, ?_, ?_, ?_, ?_, ?_⟩
  · intro hc; simp [updateMeal, hc]
  · intro hc h2; simp [updateMeal, hc, h2]
  · intro hc h2 h3; simp [updateMeal, hc, h2, h3]
  · intro hc h2 h3 h4; simp [updateMeal, hc, h2, h3, h4]
  · intro hc h2 h3 h4 h5; simp [updateMeal, hc, h2, h3, h4, h5]
  · intro e1 e2 e3 e4 e5
    rcases hm : (st.findByIdAndUpdate id b).1 with _ | m <;>
      simp [updateMeal, negPresent, e1, e2, e3, e4, e5, hm]

/-- Witness for C6: deleting identifier 0 from the sample store succeeds with
200, and deleting it again answers 404. -/
theorem update_delete_notFound_witness :
    (deleteMeal (some 7) 0 sampleStore .ok).resp =
      ⟨200, .msgB ("Meal deleted successfully")⟩ ∧
    (deleteMeal (some 7) 0
      (deleteMeal (some 7) 0 sampleStore .ok).store .ok).resp = mealNotFound :=
  (update_delete_notFound_404_and_delete_twice 7 0 sampleBody sampleStore
    (by decide)).2 sampleMeal (by decide)

/-- Witness for C8: a thrown `ValidationError` with message `'bad'` surfaces
as 400 with that message. -/
theorem store_throw_error_mapping_witness :
    (createMeal (some 7) sampleBody emptyStore
      (.throwErr ("ValidationError") (some ("bad")))).resp =
      ⟨400, .errB ⟨"Validation error", "bad"⟩⟩ := by
  have h := (store_throw_error_mapping 7 0 sampleBody emptyStore none
    ("ValidationError") (some ("bad")) (by decide) (by decide) (by decide)).1 rfl
  simpa [jsOr] using h.1

/-- Witness for C10: with both `calories` and `fat` negative, the message is
the one for `calories`. -/
theorem updateMeal_first_violation_witness :
    (updateMeal (some 7) 0 negBody2 sampleStore .ok).resp =
      ⟨400, .errB ⟨"Validation error", "Calories cannot be negative"⟩⟩ :=
  (updateMeal_first_violation_message 7 0 negBody2 sampleStore .ok).1 (by decide)

end AdminMeal
